import Mathlib

/-!
Verification development for the inventory-planner repository.

The definitions below are shallow embeddings of the JavaScript source:

* `Assignment` — the per-(variant, supplier) record built by the import
  grouping loops (`api.bulk-import-variant-suppliers.js` lines 61-72,
  `scripts/import-variant-suppliers.js` lines 135-146).  Numeric
  coercions (`parseInt(x) || 0`, `parseFloat(x) || 0`) are modelled as
  already applied, so numeric fields are `Int`/`ℚ`.
* `normalize` — the "ensure only one primary per SKU" pass
  (`api.bulk-import-variant-suppliers.js` lines 75-93,
  `scripts/import-variant-suppliers.js` lines 149-169, and the
  identical loop in `src/unnamed/part_003` lines 112-132).  The
  JavaScript walks the list backwards demoting every primary after the
  first one found; `demoteEarlier` expresses the same loop head-first:
  an element is demoted exactly when it is primary and some later
  element is also primary.
-/

namespace InventoryPlanner

structure Assignment where
  supplier_id : String
  mpn : String
  is_primary : Bool
  lead_time : Int
  threshold : Int
  daily_demand : ℚ
  last_order_date : String
  last_order_cpu : ℚ
  last_order_quantity : Int
  notes : String
deriving Repr, DecidableEq, Inhabited

/-- Write the `is_primary` flag of one assignment (`suppliers[i].is_primary = b`). -/
def setPrimary (a : Assignment) (b : Bool) : Assignment := { a with is_primary := b }

/-- `suppliers.filter(s => s.is_primary).length` from the normalization pass. -/
def primaryCount (l : List Assignment) : Nat := (l.filter (·.is_primary)).length

/-- The backward demotion loop of the normalization pass (`for (let i = suppliers.length - 1; ...)`):
the last primary in list order is kept, every earlier primary is demoted.  Element-wise: an
element is demoted exactly when it is primary and a later element is also primary. -/
def demoteEarlier : List Assignment → List Assignment
  | [] => []
  | a :: rest =>
      if a.is_primary && rest.any (·.is_primary) then
        setPrimary a false :: demoteEarlier rest
      else
        a :: demoteEarlier rest

/-- The "ensure only one primary per SKU" pass run on each grouped SKU list:
if no primary and the list is non-empty, the first element becomes primary;
if more than one primary, the backward demotion loop runs; otherwise unchanged. -/
def normalize (l : List Assignment) : List Assignment :=
  if primaryCount l = 0 ∧ 0 < l.length then
    match l with
    | [] => []
    | a :: rest => setPrimary a true :: rest
  else if 1 < primaryCount l then
    demoteEarlier l
  else
    l

theorem primaryCount_nil : primaryCount [] = 0 := rfl

theorem primaryCount_cons (a : Assignment) (l : List Assignment) :
    primaryCount (a :: l) = (if a.is_primary then 1 else 0) + primaryCount l := by
  by_cases h : a.is_primary <;>
    simp [primaryCount, List.filter_cons, h, Nat.add_comm]

theorem demoteEarlier_length (l : List Assignment) :
    (demoteEarlier l).length = l.length := by
  induction l with
  | nil => rfl
  | cons a rest ih =>
      simp only [demoteEarlier]
      split <;> simp [ih]

theorem primaryCount_demoteEarlier (l : List Assignment) :
    primaryCount (demoteEarlier l) = if l.any (·.is_primary) then 1 else 0 := by
  induction l with
  | nil => simp [demoteEarlier, primaryCount]
  | cons a rest ih =>
      simp only [demoteEarlier]
      by_cases ha : a.is_primary
      · by_cases hr : rest.any (·.is_primary)
        · simp [ha, hr, primaryCount_cons, setPrimary, ih]
        · simp [ha, hr, primaryCount_cons, ih, List.any_cons]
      · simp [ha, primaryCount_cons, ih, List.any_cons]

theorem any_of_primaryCount_pos (l : List Assignment) (h : 0 < primaryCount l) :
    l.any (·.is_primary) = true := by
  induction l with
  | nil => simp [primaryCount] at h
  | cons a rest ih =>
      rw [primaryCount_cons] at h
      by_cases ha : a.is_primary
      · simp [List.any_cons, ha]
      · simp [ha] at h
        simp [List.any_cons, ha, ih h]

theorem map_isPrimary_of_count_zero (l : List Assignment) (h : primaryCount l = 0) :
    l.map (·.is_primary) = List.replicate l.length false := by
  induction l with
  | nil => rfl
  | cons a rest ih =>
      rw [primaryCount_cons] at h
      by_cases ha : a.is_primary
      · simp [ha] at h
      · simp only [List.map_cons, List.length_cons, List.replicate_succ]
        simp [ha] at h ⊢
        exact ih h

theorem demoteEarlier_isPrimary (l : List Assignment) (i : Nat) (a b : Assignment)
    (ha : l[i]? = some a) (hb : (demoteEarlier l)[i]? = some b) :
    b.is_primary = (a.is_primary && !((l.drop (i + 1)).any (·.is_primary))) := by
  induction l generalizing i with
  | nil => simp at ha
  | cons x rest ih =>
      cases i with
      | zero =>
          simp only [List.getElem?_cons_zero, Option.some.injEq] at ha
          subst ha
          simp only [demoteEarlier] at hb
          by_cases h : x.is_primary && rest.any (·.is_primary)
          · simp only [if_pos h, List.getElem?_cons_zero, Option.some.injEq] at hb
            subst hb
            simp only [List.drop_succ_cons, List.drop_zero]
            simp only [Bool.and_eq_true] at h
            simp [setPrimary, h.1, h.2]
          · simp only [if_neg h, List.getElem?_cons_zero, Option.some.injEq] at hb
            subst hb
            simp only [List.drop_succ_cons, List.drop_zero]
            rcases Bool.and_eq_false_iff.mp (Bool.eq_false_iff.mpr h) with h' | h'
            · simp [h']
            · simp [h']
      | succ n =>
          simp only [List.getElem?_cons_succ] at ha
          simp only [demoteEarlier] at hb
          split at hb <;>
          simp only [List.getElem?_cons_succ] at hb <;>
          simpa [List.drop_succ_cons] using ih n ha hb

theorem normalize_eq_zero_case (x : Assignment) (rest : List Assignment)
    (h : primaryCount (x :: rest) = 0) :
    normalize (x :: rest) = setPrimary x true :: rest := by
  simp [normalize, h]

theorem normalize_eq_one_case (l : List Assignment) (h : primaryCount l = 1) :
    normalize l = l := by
  simp [normalize, h]

theorem normalize_eq_multi_case (l : List Assignment) (h : 1 < primaryCount l) :
    normalize l = demoteEarlier l := by
  have h0 : ¬ (primaryCount l = 0 ∧ 0 < l.length) := by
    rintro ⟨h0, -⟩; omega
  simp [normalize, h0, h]

/-- C1: for every non-empty assignment list passed through the normalize pass,
exactly one element ends with `is_primary = true`; if no input element was marked
primary the first element (and only it) is primary; if more than one was marked,
an element keeps `is_primary` exactly when it was marked and no later element was
marked (the last-marked one; all earlier marked ones are demoted). -/
theorem normalize_primary_invariant (l : List Assignment) (h : l ≠ []) :
    primaryCount (normalize l) = 1 ∧
    (primaryCount l = 0 →
      (normalize l).map (·.is_primary) = true :: List.replicate (l.length - 1) false) ∧
    (1 < primaryCount l → ∀ i a b, l[i]? = some a → (normalize l)[i]? = some b →
      b.is_primary = (a.is_primary && !((l.drop (i + 1)).any (·.is_primary)))) := by
  rcases Nat.lt_trichotomy (primaryCount l) 1 with hc | hc | hc
  · have hz : primaryCount l = 0 := by omega
    obtain ⟨x, rest, rfl⟩ : ∃ x rest, l = x :: rest := by
      cases l with
      | nil => exact absurd rfl h
      | cons x rest => exact ⟨x, rest, rfl⟩
    have hrest : primaryCount rest = 0 := by
      rw [primaryCount_cons] at hz
      omega
    rw [normalize_eq_zero_case x rest hz]
    refine ⟨?_, fun _ => ?_, fun hm => absurd hz (by omega)⟩
    · rw [primaryCount_cons]
      simp [setPrimary, hrest]
    · simp only [List.map_cons, List.length_cons, Nat.add_sub_cancel]
      simp [setPrimary, map_isPrimary_of_count_zero rest hrest]
  · rw [normalize_eq_one_case l hc]
    exact ⟨hc, fun hz => by omega, fun hm => by omega⟩
  · rw [normalize_eq_multi_case l hc]
    refine ⟨?_, fun hz => by omega, fun _ i a b ha hb => demoteEarlier_isPrimary l i a b ha hb⟩
    rw [primaryCount_demoteEarlier, if_pos (any_of_primaryCount_pos l (by omega))]

/-- Sample assignment used to instantiate the universally quantified theorems. -/
def sampleA : Assignment :=
  { supplier_id := "SUP-1", mpn := "", is_primary := true, lead_time := 14, threshold := 10,
    daily_demand := 2, last_order_date := "", last_order_cpu := 0, last_order_quantity := 0,
    notes := "" }

/-- Second sample assignment, also marked primary. -/
def sampleB : Assignment :=
  { supplier_id := "SUP-2", mpn := "", is_primary := true, lead_time := 7, threshold := 5,
    daily_demand := 1, last_order_date := "", last_order_cpu := 0, last_order_quantity := 0,
    notes := "" }

theorem normalize_primary_invariant_witness :
    primaryCount (normalize [sampleA, sampleB]) = 1 :=
  (normalize_primary_invariant [sampleA, sampleB] (by simp)).1

/-- Two assignments agree on every field except possibly `is_primary`. -/
def agreesExceptPrimary (a b : Assignment) : Prop :=
  a.supplier_id = b.supplier_id ∧ a.mpn = b.mpn ∧ a.lead_time = b.lead_time ∧
  a.threshold = b.threshold ∧ a.daily_demand = b.daily_demand ∧
  a.last_order_date = b.last_order_date ∧ a.last_order_cpu = b.last_order_cpu ∧
  a.last_order_quantity = b.last_order_quantity ∧ a.notes = b.notes

theorem agreesExceptPrimary_refl (a : Assignment) : agreesExceptPrimary a a := by
  simp [agreesExceptPrimary]

theorem agreesExceptPrimary_setPrimary (a : Assignment) (v : Bool) :
    agreesExceptPrimary a (setPrimary a v) := by
  simp [agreesExceptPrimary, setPrimary]

theorem demoteEarlier_agrees (l : List Assignment) (i : Nat) (a b : Assignment)
    (ha : l[i]? = some a) (hb : (demoteEarlier l)[i]? = some b) :
    agreesExceptPrimary a b := by
  induction l generalizing i with
  | nil => simp at ha
  | cons x rest ih =>
      cases i with
      | zero =>
          simp only [List.getElem?_cons_zero, Option.some.injEq] at ha
          subst ha
          simp only [demoteEarlier] at hb
          split at hb <;>
          simp only [List.getElem?_cons_zero, Option.some.injEq] at hb <;>
          subst hb
          · exact agreesExceptPrimary_setPrimary _ false
          · exact agreesExceptPrimary_refl _
      | succ n =>
          simp only [List.getElem?_cons_succ] at ha
          simp only [demoteEarlier] at hb
          split at hb <;>
          simp only [List.getElem?_cons_succ] at hb <;>
          exact ih n ha hb

/-- C10: the normalize pass only mutates `is_primary` flags — it preserves the
length and order of the list, and at every position all fields other than
`is_primary` (supplier_id, mpn, lead_time, threshold, daily_demand,
last_order_date, last_order_cpu, last_order_quantity, notes) are unchanged. -/
theorem normalize_frame (l : List Assignment) :
    (normalize l).length = l.length ∧
    (∀ (i : Nat) (a b : Assignment),
      l[i]? = some a → (normalize l)[i]? = some b → agreesExceptPrimary a b) := by
  rcases Nat.lt_trichotomy (primaryCount l) 1 with hc | hc | hc
  · have hz : primaryCount l = 0 := by omega
    cases l with
    | nil =>
        refine ⟨rfl, fun i a b ha hb => ?_⟩
        rw [List.getElem?_nil] at ha
        exact Option.noConfusion ha
    | cons x rest =>
        rw [normalize_eq_zero_case x rest hz]
        refine ⟨by simp, fun i a b ha hb => ?_⟩
        cases i with
        | zero =>
            simp only [List.getElem?_cons_zero, Option.some.injEq] at ha hb
            subst ha; subst hb
            exact agreesExceptPrimary_setPrimary _ true
        | succ n =>
            simp only [List.getElem?_cons_succ] at ha hb
            rw [ha] at hb
            cases hb
            exact agreesExceptPrimary_refl a
  · rw [normalize_eq_one_case l hc]
    refine ⟨rfl, fun i a b ha hb => ?_⟩
    rw [ha] at hb
    cases hb
    exact agreesExceptPrimary_refl a
  · rw [normalize_eq_multi_case l hc]
    exact ⟨demoteEarlier_length l, fun i a b ha hb => demoteEarlier_agrees l i a b ha hb⟩

theorem normalize_frame_witness :
    (normalize [sampleA, sampleB]).length = [sampleA, sampleB].length ∧
    agreesExceptPrimary sampleA (setPrimary sampleA false) :=
  ⟨(normalize_frame [sampleA, sampleB]).1,
   (normalize_frame [sampleA, sampleB]).2 0 sampleA (setPrimary sampleA false)
     (by decide) (by decide)⟩

/-!
Risk calculation engine.

`computeRiskRecord` embeds `src/unnamed/part_000` over the already-coerced
numeric inputs `Q` (on-hand quantity), `D` (daily demand), `T` (threshold) and
`L` (lead time in days); `days_until_stockout` is `WithTop ℚ`, with `⊤`
standing for the JavaScript `Infinity`.  The date fields (`out_of_stock_date`,
`reorder_date`), which are wall-clock values derived from `now`, are omitted.

`dashboardDaysUntilStockout` embeds line 151 of `app/routes/app.dashboard.jsx`
(the same expression appears in `app.supplier-dashboard.jsx` line 295,
`app.purchase-orders.jsx` line 153, and `src/unnamed/part_005`, `part_006`,
`part_008`, `part_009`): the quotient is floored to an integer and a sentinel
of 999 replaces the infinite case.

`riskLevelOfDays` embeds the tier chain shared verbatim by
`app.dashboard.jsx` lines 153-163, `src/unnamed/part_005` lines 249-264,
`part_006`, `part_008`, `part_009` and the badge at
`app.purchase-orders.jsx` lines 233-239.

`reportMetrics` embeds the metric block of `src/unnamed/part_005` lines
240-264 (identical in `part_006` lines 290-314); `sdReorderPoint` embeds
`app.supplier-dashboard.jsx` line 298 (same expression at
`app.purchase-orders.jsx` line 156); `purchaseOrderRecommendedQty` embeds
`app.purchase-orders.jsx` lines 160-163.
-/

structure RiskRecord where
  on_hand : Int
  daily_demand : ℚ
  threshold : ℚ
  lead_time_days : ℚ
  annualized_demand : ℚ
  days_until_stockout : WithTop ℚ
  suggested_order_size : ℚ
  risk_color : String

/-- The `days_until_stockout` computation of `computeRiskRecord`
(`src/unnamed/part_000` lines 9-13). -/
def engineDaysUntilStockout (Q : Int) (D T : ℚ) : WithTop ℚ :=
  if 0 < D then
    (if (Q : ℚ) ≤ T then ((0 : ℚ) : WithTop ℚ) else ((((Q : ℚ) - T) / D : ℚ) : WithTop ℚ))
  else ⊤

/-- The `risk_color` chain of `computeRiskRecord`
(`src/unnamed/part_000` lines 24-27). -/
def riskColorOfDays (days : WithTop ℚ) : String :=
  if days ≤ ((7 : ℚ) : WithTop ℚ) then "red"
  else if days ≤ ((21 : ℚ) : WithTop ℚ) then "orange"
  else if days ≤ ((45 : ℚ) : WithTop ℚ) then "yellow"
  else "green"

def computeRiskRecord (Q : Int) (D T L : ℚ) : RiskRecord :=
  let annualized_demand := D * 365
  let days_until_stockout := engineDaysUntilStockout Q D T
  let safety_days : ℚ := 7
  let target_stock := D * (L + safety_days)
  let suggested_order_size := max 0 (target_stock + T - (Q : ℚ))
  let risk_color := riskColorOfDays days_until_stockout
  { on_hand := Q, daily_demand := D, threshold := T, lead_time_days := L,
    annualized_demand := annualized_demand, days_until_stockout := days_until_stockout,
    suggested_order_size := suggested_order_size, risk_color := risk_color }

def dashboardDaysUntilStockout (onHand : Int) (dailyDemand : ℚ) (threshold : Int) : Int :=
  if 0 < dailyDemand then ⌊((onHand : ℚ) - (threshold : ℚ)) / dailyDemand⌋ else 999

inductive RiskTier
  | out_of_stock
  | critical
  | warning
  | attention
  | low
deriving Repr, DecidableEq

def riskLevelOfDays (days : Int) : RiskTier :=
  if days < 0 then .out_of_stock
  else if days ≤ 7 then .critical
  else if days ≤ 14 then .warning
  else if days ≤ 30 then .attention
  else .low

structure ReportMetrics where
  dailyDemand : ℚ
  threshold : Int
  leadTime : Int
  annualizedDemand : ℚ
  daysUntilStockout : Int
  reorderPoint : ℚ
  suggestedOrderSize : ℚ
  riskLevel : RiskTier

def reportMetrics (onHand : Int) (dailyDemand : ℚ) (threshold leadTime : Int) : ReportMetrics :=
  let daysUntilStockout := dashboardDaysUntilStockout onHand dailyDemand threshold
  let reorderPoint : ℚ := (threshold : ℚ) + dailyDemand * (leadTime : ℚ)
  let suggestedOrderSize : ℚ := max 0 (dailyDemand * (leadTime : ℚ) * 2 - (onHand : ℚ))
  { dailyDemand := dailyDemand, threshold := threshold, leadTime := leadTime,
    annualizedDemand := dailyDemand * 365, daysUntilStockout := daysUntilStockout,
    reorderPoint := reorderPoint, suggestedOrderSize := suggestedOrderSize,
    riskLevel := riskLevelOfDays daysUntilStockout }

def sdReorderPoint (threshold : Int) (dailyDemand : ℚ) (leadTime : Int) : ℚ :=
  (threshold : ℚ) + dailyDemand * (leadTime : ℚ)

def purchaseOrderRecommendedQty (onHand : Int) (dailyDemand : ℚ) (threshold leadTime : Int) : Int :=
  max 0 ⌈dailyDemand * (leadTime : ℚ) * 2 + (threshold : ℚ) - (onHand : ℚ)⌉

/-- C2 counterexample: at the dashboard call site, with dailyDemand = 2 > 0 and
onHand = 5 ≤ threshold = 10, days-until-stockout is the floored quotient -3,
not the claimed exact 0 — so the three-case contract does not hold at every
call site that computes the metric. -/
theorem stockout_days_dashboard_counterexample :
    (0 : ℚ) < 2 ∧ (5 : Int) ≤ 10 ∧
    dashboardDaysUntilStockout 5 2 10 = -3 ∧ dashboardDaysUntilStockout 5 2 10 ≠ 0 := by
  refine ⟨by norm_num, by norm_num, ?_, ?_⟩ <;> norm_num [dashboardDaysUntilStockout]

/-- C2 amended: the three-case stockout contract — infinite days when demand is
zero, exactly 0 when on-hand is at or under threshold, and the exact (not
floored) quotient otherwise — holds for the risk engine `computeRiskRecord`;
the dashboard/report call sites instead floor the quotient to an integer and
use the sentinel 999 when demand is zero (without the threshold clamp). -/
theorem computeRisk_days_spec (Q : Int) (D T L : ℚ) :
    (D = 0 → (computeRiskRecord Q D T L).days_until_stockout = ⊤) ∧
    (0 < D → (Q : ℚ) ≤ T →
      (computeRiskRecord Q D T L).days_until_stockout = ((0 : ℚ) : WithTop ℚ)) ∧
    (0 < D → T < (Q : ℚ) →
      (computeRiskRecord Q D T L).days_until_stockout = ((((Q : ℚ) - T) / D : ℚ) : WithTop ℚ)) ∧
    (D = 0 → dashboardDaysUntilStockout Q D (0 : Int) = 999) := by
  refine ⟨fun h0 => ?_, fun hD hQT => ?_, fun hD hTQ => ?_, fun h0 => ?_⟩
  · simp [computeRiskRecord, engineDaysUntilStockout, h0]
  · simp [computeRiskRecord, engineDaysUntilStockout, hD, hQT]
  · simp [computeRiskRecord, engineDaysUntilStockout, hD, not_le.mpr hTQ]
  · simp [dashboardDaysUntilStockout, h0]

theorem computeRisk_days_spec_witness :
    (computeRiskRecord 5 2 10 14).days_until_stockout = ((0 : ℚ) : WithTop ℚ) :=
  (computeRisk_days_spec 5 2 10 14).2.1 (by norm_num) (by norm_num)

/-- C3 counterexample: at 40 days until stockout (onHand = 90, threshold = 10,
dailyDemand = 2) the claimed table classifies the variant as LOW (40 > 30), but
the `computeRiskRecord` call site is still in its third band ("yellow", bound
45) rather than its lowest band ("green") — the single <0/≤7/≤14/≤30 table is
not used at every call site. -/
theorem risk_tier_counterexample :
    (computeRiskRecord 90 2 10 0).days_until_stockout = ((40 : ℚ) : WithTop ℚ) ∧
    riskLevelOfDays 40 = RiskTier.low ∧
    (computeRiskRecord 90 2 10 0).risk_color = "yellow" ∧
    (computeRiskRecord 90 2 10 0).risk_color ≠ "green" := by
  have hd : engineDaysUntilStockout 90 2 10 = ((40 : ℚ) : WithTop ℚ) := by
    norm_num [engineDaysUntilStockout]
  have hcol : riskColorOfDays ((40 : ℚ) : WithTop ℚ) = "yellow" := by
    have h1 : ¬ ((40 : ℚ) : WithTop ℚ) ≤ ((7 : ℚ) : WithTop ℚ) := by
      rw [WithTop.coe_le_coe]; norm_num
    have h2 : ¬ ((40 : ℚ) : WithTop ℚ) ≤ ((21 : ℚ) : WithTop ℚ) := by
      rw [WithTop.coe_le_coe]; norm_num
    have h3 : ((40 : ℚ) : WithTop ℚ) ≤ ((45 : ℚ) : WithTop ℚ) := by
      rw [WithTop.coe_le_coe]; norm_num
    rw [riskColorOfDays, if_neg h1, if_neg h2, if_pos h3]
  refine ⟨hd, by decide, ?_, ?_⟩
  · show riskColorOfDays (engineDaysUntilStockout 90 2 10) = "yellow"
    rw [hd, hcol]
  · show riskColorOfDays (engineDaysUntilStockout 90 2 10) ≠ "green"
    rw [hd, hcol]
    decide

/-- C3 amended: the dashboard/report call sites all share the ordered table
<0 → OUT_OF_STOCK, ≤7 → CRITICAL, ≤14 → WARNING, ≤30 → ATTENTION, else LOW,
which is exhaustive and mutually exclusive on integer day counts; the
`computeRiskRecord` engine instead uses its own exhaustive four-colour chain
with bounds ≤7 ("red"), ≤21 ("orange"), ≤45 ("yellow"), else "green", and no
separate out-of-stock tier. -/
theorem risk_tier_tables (d : Int) (q : WithTop ℚ) (Q : Int) (D T L : ℚ) :
    (d < 0 ↔ riskLevelOfDays d = RiskTier.out_of_stock) ∧
    (0 ≤ d ∧ d ≤ 7 ↔ riskLevelOfDays d = RiskTier.critical) ∧
    (7 < d ∧ d ≤ 14 ↔ riskLevelOfDays d = RiskTier.warning) ∧
    (14 < d ∧ d ≤ 30 ↔ riskLevelOfDays d = RiskTier.attention) ∧
    (30 < d ↔ riskLevelOfDays d = RiskTier.low) ∧
    (riskColorOfDays q = "red" ∨ riskColorOfDays q = "orange" ∨
     riskColorOfDays q = "yellow" ∨ riskColorOfDays q = "green") ∧
    (q ≤ ((7 : ℚ) : WithTop ℚ) ↔ riskColorOfDays q = "red") ∧
    (computeRiskRecord Q D T L).risk_color =
      riskColorOfDays (computeRiskRecord Q D T L).days_until_stockout := by
  refine ⟨?_, ?_, ?_, ?_, ?_, ?_, ?_, rfl⟩
  · unfold riskLevelOfDays
    split <;> rename_i h₁
    · simp [h₁]
    · split <;> [skip; split <;> [skip; split]] <;> simp <;> omega
  · unfold riskLevelOfDays
    split <;> rename_i h₁
    · simp; omega
    · split <;> rename_i h₂
      · simp; omega
      · split <;> [skip; split] <;> simp <;> omega
  · unfold riskLevelOfDays
    split <;> rename_i h₁
    · simp; omega
    · split <;> rename_i h₂
      · simp; omega
      · split <;> rename_i h₃
        · simp; omega
        · split <;> simp <;> omega
  · unfold riskLevelOfDays
    split <;> rename_i h₁
    · simp; omega
    · split <;> rename_i h₂
      · simp; omega
      · split <;> rename_i h₃
        · simp; omega
        · split <;> rename_i h₄ <;> simp <;> omega
  · unfold riskLevelOfDays
    split <;> rename_i h₁
    · simp; omega
    · split <;> rename_i h₂
      · simp; omega
      · split <;> rename_i h₃
        · simp; omega
        · split <;> rename_i h₄ <;> simp <;> omega
  · unfold riskColorOfDays
    split <;> [skip; split <;> [skip; split]] <;> simp
  · unfold riskColorOfDays
    split <;> rename_i h₁
    · simpa using h₁
    · simp only [h₁, if_false, iff_false]
      split <;> [decide; split <;> decide]

theorem risk_tier_tables_witness :
    20 < (30 : Int) ∧ riskLevelOfDays 20 = RiskTier.attention :=
  ⟨by norm_num, ((risk_tier_tables 20 ⊤ 0 0 0 0).2.2.2.1).mp (by norm_num)⟩

/-- C4 counterexample: at onHand = 5, dailyDemand = 2, threshold = 10,
leadTimeDays = 14, the engine's suggested order size is
max(0, 2·(14+7)+10−5) = 47 while the report pages compute
max(0, 2·14·2−5) = 51 — the call sites do not use one single formula. -/
theorem order_quantity_counterexample :
    (computeRiskRecord 5 2 10 14).suggested_order_size = 47 ∧
    (reportMetrics 5 2 10 14).suggestedOrderSize = 51 ∧
    (47 : ℚ) ≠ 51 := by
  refine ⟨?_, ?_, by norm_num⟩ <;>
    norm_num [computeRiskRecord, reportMetrics]

/-- C4 amended: `computeRiskRecord` computes
max(0, dailyDemand·(leadTimeDays+7) + threshold − onHand) with the fixed
buffer SAFETY_DAYS = 7, while the report pages compute
max(0, dailyDemand·leadTimeDays·2 − onHand) and the purchase-orders page
computes max(0, ⌈dailyDemand·leadTimeDays·2 + threshold − onHand⌉) — three
distinct policies rather than one consistent formula. -/
theorem order_quantity_formulas (Q : Int) (D : ℚ) (T L : Int) (Tq Lq : ℚ) :
    (computeRiskRecord Q D Tq Lq).suggested_order_size = max 0 (D * (Lq + 7) + Tq - (Q : ℚ)) ∧
    (reportMetrics Q D T L).suggestedOrderSize = max 0 (D * (L : ℚ) * 2 - (Q : ℚ)) ∧
    purchaseOrderRecommendedQty Q D T L = max 0 ⌈D * (L : ℚ) * 2 + (T : ℚ) - (Q : ℚ)⌉ := by
  refine ⟨?_, rfl, rfl⟩
  simp [computeRiskRecord]

/-- C9: with on-hand, demand (≥ 0) and threshold fixed, increasing the lead
time never decreases the reorder point or the suggested order quantity, at
each call site that computes them: the report pages (`reportMetrics`), the
supplier dashboard (`sdReorderPoint`), the purchase-orders page
(`purchaseOrderRecommendedQty`) and the risk engine (`computeRiskRecord`). -/
theorem reorder_monotonicity (Q : Int) (D : ℚ) (T : Int) (L1 L2 : Int) (Tq L1q L2q : ℚ)
    (hD : 0 ≤ D) (hL : L1 ≤ L2) (hLq : L1q ≤ L2q) :
    (reportMetrics Q D T L1).reorderPoint ≤ (reportMetrics Q D T L2).reorderPoint ∧
    (reportMetrics Q D T L1).suggestedOrderSize ≤ (reportMetrics Q D T L2).suggestedOrderSize ∧
    sdReorderPoint T D L1 ≤ sdReorderPoint T D L2 ∧
    purchaseOrderRecommendedQty Q D T L1 ≤ purchaseOrderRecommendedQty Q D T L2 ∧
    (computeRiskRecord Q D Tq L1q).suggested_order_size ≤
      (computeRiskRecord Q D Tq L2q).suggested_order_size := by
  have hLc : (L1 : ℚ) ≤ (L2 : ℚ) := by exact_mod_cast hL
  have hmul : D * (L1 : ℚ) ≤ D * (L2 : ℚ) := mul_le_mul_of_nonneg_left hLc hD
  refine ⟨?_, ?_, ?_, ?_, ?_⟩
  · simp only [reportMetrics]
    linarith
  · simp only [reportMetrics]
    apply max_le_max le_rfl
    linarith
  · simp only [sdReorderPoint]
    linarith
  · simp only [purchaseOrderRecommendedQty]
    apply max_le_max le_rfl
    apply Int.ceil_le_ceil
    linarith
  · simp only [computeRiskRecord]
    apply max_le_max le_rfl
    have : D * L1q ≤ D * L2q := mul_le_mul_of_nonneg_left hLq hD
    have hexp : D * (L1q + 7) ≤ D * (L2q + 7) := by
      rw [mul_add, mul_add]
      linarith
    linarith

theorem reorder_monotonicity_witness :
    (reportMetrics 5 2 10 3).reorderPoint ≤ (reportMetrics 5 2 10 9).reorderPoint ∧
    (reportMetrics 5 2 10 3).suggestedOrderSize ≤ (reportMetrics 5 2 10 9).suggestedOrderSize ∧
    sdReorderPoint 10 2 3 ≤ sdReorderPoint 10 2 9 ∧
    purchaseOrderRecommendedQty 5 2 10 3 ≤ purchaseOrderRecommendedQty 5 2 10 9 ∧
    (computeRiskRecord 5 2 10 3).suggested_order_size ≤
      (computeRiskRecord 5 2 10 9).suggested_order_size :=
  reorder_monotonicity 5 2 10 3 9 10 3 9 (by norm_num) (by norm_num) (by norm_num)

/-!
Import pipeline.

`RawItem` is one element of the JSON `variantSuppliers` array received by
`api.bulk-import-variant-suppliers.js`; its numeric/boolean coercions
(`parseInt(x) || 0`, `parseFloat(x) || 0`, the `is_primary` truthiness check)
are modelled as already applied, and a missing/empty `sku` or `supplier_id`
is the empty string (the JavaScript falsy cases collapse to `""` via
`item.supplier_id || ""`).

`apiGroupBySKU` embeds the grouping loop of that route (lines 52-73): a row
with empty `sku` is skipped (`if (!sku) continue`), every other row — with or
without a `supplier_id` — is appended to its SKU group.  JavaScript object
keys preserve insertion order, so the grouped object is an association list.

`CSVRow` is one already-tokenised line of the CSV import scripts
(`scripts/import-variant-suppliers.js`, `src/unnamed/part_003`), fields as
strings after `trim()`, missing cells as `""`.  `parseCSVRows` embeds the
keep-condition of `parseCSV` (lines 86-89): a row is kept only when both
`SKU` and `SupplierID` are non-empty.  The character-level tokenisation
(`parseCSVLine`) is not modelled; rows enter already split.

`processGroup` embeds the per-SKU validation of the API route (lines
202-220) and of the scripts (lines 472-489): unknown SKU skips the group,
any unknown `supplier_id` skips the whole group with the list of unknown
ids, otherwise the full assignment list is committed.
-/

structure RawItem where
  sku : String
  supplier_id : String
  mpn : String
  is_primary : Bool
  lead_time : Int
  threshold : Int
  daily_demand : ℚ
  last_order_date : String
  last_order_cpu : ℚ
  last_order_quantity : Int
  notes : String
deriving Repr, DecidableEq

def apiBuildAssignment (item : RawItem) : Assignment :=
  { supplier_id := item.supplier_id, mpn := item.mpn, is_primary := item.is_primary,
    lead_time := item.lead_time, threshold := item.threshold,
    daily_demand := item.daily_demand, last_order_date := item.last_order_date,
    last_order_cpu := item.last_order_cpu, last_order_quantity := item.last_order_quantity,
    notes := item.notes }

def insertGroup : List (String × List Assignment) → String → Assignment →
    List (String × List Assignment)
  | [], sku, a => [(sku, [a])]
  | (k, l) :: rest, sku, a =>
      if k = sku then (k, l ++ [a]) :: rest else (k, l) :: insertGroup rest sku a

def apiGroupBySKU (items : List RawItem) : List (String × List Assignment) :=
  items.foldl
    (fun acc item =>
      if item.sku = "" then acc else insertGroup acc item.sku (apiBuildAssignment item))
    []

structure CSVRow where
  sku : String
  supplierID : String
  mpn : String
  isPrimary : String
  leadTime : String
  threshold : String
  dailyDemand : String
  lastOrderDate : String
  lastOrderCPU : String
  lastOrderQty : String
  notes : String
deriving Repr, DecidableEq

def parseCSVRows (rows : List CSVRow) : List CSVRow :=
  rows.filter (fun r => !(r.sku == "") && !(r.supplierID == ""))

inductive GroupOutcome
  | skippedSkuNotFound
  | skippedUnknownSuppliers (ids : List String)
  | committed (data : List Assignment)
deriving Repr, DecidableEq

def processGroup (variantFound : Bool) (supplierIDs : List String)
    (group : List Assignment) : GroupOutcome :=
  if !variantFound then .skippedSkuNotFound
  else
    let invalid := group.filter (fun s => !(supplierIDs.contains s.supplier_id))
    if 0 < invalid.length then .skippedUnknownSuppliers (invalid.map (·.supplier_id))
    else .committed group

/-- C5: a SKU group containing at least one supplier_id missing from the
supplier catalog is skipped as a whole, with the unknown id listed in the
reason, and no assignment of the group — valid members included — is
committed. -/
theorem validation_atomicity (supplierIDs : List String) (g : List Assignment)
    (s : Assignment) (hs : s ∈ g) (hbad : s.supplier_id ∉ supplierIDs) :
    (∃ ids, processGroup true supplierIDs g = GroupOutcome.skippedUnknownSuppliers ids ∧
      s.supplier_id ∈ ids) ∧
    (∀ data, processGroup true supplierIDs g ≠ GroupOutcome.committed data) := by
  have hcontains : supplierIDs.contains s.supplier_id = false := by
    rw [Bool.eq_false_iff]
    intro hc
    rcases List.contains_iff_exists_mem_beq.mp hc with ⟨b, hb, hbeq⟩
    rw [beq_iff_eq] at hbeq
    exact hbad (by rw [hbeq]; exact hb)
  have hsinv : s ∈ g.filter (fun t => !(supplierIDs.contains t.supplier_id)) :=
    List.mem_filter.mpr ⟨hs, by rw [hcontains]; rfl⟩
  have hlen : 0 < (g.filter (fun t => !(supplierIDs.contains t.supplier_id))).length :=
    List.length_pos.mpr (List.ne_nil_of_mem hsinv)
  have heq : processGroup true supplierIDs g =
      GroupOutcome.skippedUnknownSuppliers
        ((g.filter (fun t => !(supplierIDs.contains t.supplier_id))).map (·.supplier_id)) := by
    simp only [processGroup, Bool.not_true, Bool.false_eq_true, if_false, if_pos hlen]
  refine ⟨⟨_, heq, ?_⟩, fun data hcom => ?_⟩
  · exact List.mem_map.mpr ⟨s, hsinv, rfl⟩
  · rw [heq] at hcom
    exact GroupOutcome.noConfusion hcom

/-- Concrete assignment carrying an unknown supplier id, used to instantiate
the validation theorem. -/
def unknownSupplierRow : Assignment :=
  { supplier_id := "SUP-404", mpn := "", is_primary := false, lead_time := 0, threshold := 0,
    daily_demand := 0, last_order_date := "", last_order_cpu := 0, last_order_quantity := 0,
    notes := "" }

theorem validation_atomicity_witness :
    (∃ ids, processGroup true ["SUP-1", "SUP-2"] [sampleA, unknownSupplierRow] =
        GroupOutcome.skippedUnknownSuppliers ids ∧ "SUP-404" ∈ ids) ∧
    (∀ data, processGroup true ["SUP-1", "SUP-2"] [sampleA, unknownSupplierRow] ≠
        GroupOutcome.committed data) :=
  validation_atomicity ["SUP-1", "SUP-2"] [sampleA, unknownSupplierRow]
    unknownSupplierRow (by decide) (by decide)

/-- A JSON import row with a sku but no supplier_id (`item.supplier_id || ""`
collapses the missing value to the empty string). -/
def itemNoSupplier : RawItem :=
  { sku := "SKU-A", supplier_id := "", mpn := "", is_primary := false, lead_time := 0,
    threshold := 0, daily_demand := 0, last_order_date := "", last_order_cpu := 0,
    last_order_quantity := 0, notes := "" }

/-- C6 counterexample: in the API route's grouping loop a row with a missing
`supplier_id` is NOT dropped — it contributes an assignment (with
`supplier_id = ""`) to its SKU group. -/
theorem missing_supplier_row_counterexample :
    apiGroupBySKU [itemNoSupplier] = [("SKU-A", [apiBuildAssignment itemNoSupplier])] ∧
    (apiBuildAssignment itemNoSupplier).supplier_id = "" ∧
    apiGroupBySKU [itemNoSupplier] ≠ [] := by
  refine ⟨?_, rfl, ?_⟩ <;> decide

/-- C6 amended: the CSV import scripts drop every row missing `SKU` or
`SupplierID` before grouping, and the API route drops every row missing
`sku`; but the API route keeps a row missing `supplier_id` (it enters its SKU
group with `supplier_id = ""` and later causes the whole group to be skipped
at supplier validation). -/
theorem import_parse_drop (rows : List CSVRow) (r : CSVRow)
    (hr : r.sku = "" ∨ r.supplierID = "")
    (items : List RawItem) (it : RawItem) (hit : it.sku = "") :
    r ∉ parseCSVRows rows ∧
    apiGroupBySKU (items ++ [it]) = apiGroupBySKU items := by
  constructor
  · intro hmem
    have := List.of_mem_filter hmem
    rcases hr with h | h <;> simp [h] at this
  · simp only [apiGroupBySKU, List.foldl_append, List.foldl_cons, List.foldl_nil]
    rw [if_pos hit]

/-- Concrete CSV row with an empty SupplierID cell. -/
def csvRowNoSupplier : CSVRow :=
  { sku := "SKU-A", supplierID := "", mpn := "", isPrimary := "", leadTime := "",
    threshold := "", dailyDemand := "", lastOrderDate := "", lastOrderCPU := "",
    lastOrderQty := "", notes := "" }

/-- Concrete API row with an empty sku. -/
def itemNoSku : RawItem :=
  { sku := "", supplier_id := "SUP-1", mpn := "", is_primary := false, lead_time := 0,
    threshold := 0, daily_demand := 0, last_order_date := "", last_order_cpu := 0,
    last_order_quantity := 0, notes := "" }

theorem import_parse_drop_witness :
    csvRowNoSupplier ∉ parseCSVRows [csvRowNoSupplier] ∧
    apiGroupBySKU ([itemNoSupplier] ++ [itemNoSku]) = apiGroupBySKU [itemNoSupplier] :=
  import_parse_drop [csvRowNoSupplier] csvRowNoSupplier (Or.inr rfl)
    [itemNoSupplier] itemNoSku rfl

/-!
Interactive assignment-list editing.

`addSupplier` embeds the `addSupplier` handler of `src/unnamed/part_011`
lines 280-327 (identical in `src/unnamed/part_013` lines 196-242): the form
is rejected when no supplier is selected; the built record forces
`is_primary` when the list is empty (`form.is_primary || suppliersList.length === 0`);
with an `editingIndex` the record replaces the entry in place, otherwise it
is appended after demoting the others when `form.is_primary` is set.

`SupplierBlob` is the persisted `supplier_data` metafield value after JSON
parsing: either the legacy single-assignment object or the current array.
`openEditSuppliersList` embeds the shape check of `openEdit`
(`src/unnamed/part_011` lines 246-261); `supplierDashboardList` embeds
`Array.isArray(parsed) ? parsed : [parsed]` of
`app/routes/app.supplier-dashboard.jsx` line 272 (same expression at
`app.purchase-orders.jsx` line 142).
-/

def demoteAll (l : List Assignment) : List Assignment :=
  l.map (fun s => { s with is_primary := false })

def addSupplier (suppliersList : List Assignment) (editingIndex : Option Nat)
    (form : Assignment) : List Assignment :=
  if form.supplier_id = "" then suppliersList
  else
    let newSupplier := { form with is_primary := form.is_primary || suppliersList.length == 0 }
    match editingIndex with
    | some i => suppliersList.set i newSupplier
    | none =>
        let updated := if form.is_primary then demoteAll suppliersList else suppliersList
        updated ++ [newSupplier]

/-- Existing list entry that is primary. -/
def existingPrimary : Assignment :=
  { supplier_id := "SUP-1", mpn := "", is_primary := true, lead_time := 3, threshold := 4,
    daily_demand := 1, last_order_date := "", last_order_cpu := 2, last_order_quantity := 5,
    notes := "" }

/-- Existing list entry that is not primary. -/
def existingSecondary : Assignment :=
  { supplier_id := "SUP-2", mpn := "", is_primary := false, lead_time := 6, threshold := 1,
    daily_demand := 2, last_order_date := "", last_order_cpu := 3, last_order_quantity := 7,
    notes := "" }

/-- Form input marked primary, targeting an in-place update. -/
def primaryForm : Assignment :=
  { supplier_id := "SUP-3", mpn := "", is_primary := true, lead_time := 8, threshold := 2,
    daily_demand := 3, last_order_date := "", last_order_cpu := 4, last_order_quantity := 9,
    notes := "" }

/-- C7 counterexample: replacing index 1 with a primary-marked assignment does
not demote the existing primary at index 0 — the result carries two primaries,
so "in both cases every other assignment ends non-primary" fails on the
update-in-place branch. -/
theorem addSupplier_update_counterexample :
    primaryForm.is_primary = true ∧
    addSupplier [existingPrimary, existingSecondary] (some 1) primaryForm =
      [existingPrimary, primaryForm] ∧
    primaryCount (addSupplier [existingPrimary, existingSecondary] (some 1) primaryForm) = 2 := by
  refine ⟨rfl, ?_, ?_⟩ <;> decide

/-- C7 amended: with an index the incoming assignment replaces the entry at
that index and every other entry — `is_primary` flags included — is left
unchanged (so an incoming primary can coexist with an existing one); without
an index, when the incoming assignment is marked primary, every previous
entry is demoted first and the new assignment is appended as the only
primary. -/
theorem addSupplier_spec (l : List Assignment) (form : Assignment) (i : Nat)
    (hid : ¬ form.supplier_id = "") :
    (∀ j : Nat, j ≠ i → (addSupplier l (some i) form)[j]? = l[j]?) ∧
    (form.is_primary = true →
      addSupplier l none form = demoteAll l ++ [{ form with is_primary := true }] ∧
      primaryCount (addSupplier l none form) = 1) := by
  constructor
  · intro j hj
    simp only [addSupplier, if_neg hid]
    exact List.getElem?_set_ne (fun h => hj h.symm)
  · intro hp
    have heq : addSupplier l none form = demoteAll l ++ [{ form with is_primary := true }] := by
      simp only [addSupplier, if_neg hid, hp, Bool.true_or, if_pos]
    refine ⟨heq, ?_⟩
    rw [heq]
    have hzero : primaryCount (demoteAll l) = 0 := by
      simp [primaryCount, demoteAll, List.filter_map]
    have : primaryCount (demoteAll l ++ [{ form with is_primary := true }]) =
        primaryCount (demoteAll l) + primaryCount [{ form with is_primary := true }] := by
      simp [primaryCount, List.filter_append]
    rw [this, hzero]
    rfl

theorem addSupplier_spec_witness :
    (addSupplier [existingPrimary, existingSecondary] (some 1) primaryForm)[0]? =
      [existingPrimary, existingSecondary][0]? ∧
    addSupplier [existingPrimary] none primaryForm =
      demoteAll [existingPrimary] ++ [{ primaryForm with is_primary := true }] ∧
    primaryCount (addSupplier [existingPrimary] none primaryForm) = 1 :=
  ⟨(addSupplier_spec [existingPrimary, existingSecondary] primaryForm 1 (by decide)).1
      0 (by decide),
   ((addSupplier_spec [existingPrimary] primaryForm 0 (by decide)).2 rfl).1,
   ((addSupplier_spec [existingPrimary] primaryForm 0 (by decide)).2 rfl).2⟩

inductive SupplierBlob
  | legacy (a : Assignment)
  | list (l : List Assignment)
deriving Repr, DecidableEq

def openEditSuppliersList : SupplierBlob → List Assignment
  | .list l => l
  | .legacy a => [{ a with is_primary := true }]

def supplierDashboardList : SupplierBlob → List Assignment
  | .list l => l
  | .legacy a => [a]

/-- Legacy single-assignment blob whose object (as typical for the old
format) carries no primary mark. -/
def legacyNoPrimary : Assignment :=
  { supplier_id := "SUP-9", mpn := "", is_primary := false, lead_time := 5, threshold := 3,
    daily_demand := 1, last_order_date := "", last_order_cpu := 6, last_order_quantity := 2,
    notes := "" }

/-- C8 counterexample: the supplier-dashboard read boundary upconverts a
legacy single-object blob by bare wrapping (`[parsed]`) without setting
`is_primary`, so the sole element of the resulting list is not primary —
the claimed implicitly-primary upconversion does not happen at every read
boundary. -/
theorem legacy_upconversion_counterexample :
    supplierDashboardList (SupplierBlob.legacy legacyNoPrimary) = [legacyNoPrimary] ∧
    legacyNoPrimary.is_primary = false := ⟨rfl, rfl⟩

/-- C8 amended: the interactive editor's read boundary (`openEdit`)
upconverts a legacy object into a one-element list whose sole element is
forced primary; the supplier-dashboard (and purchase-orders) read boundary
instead wraps the lone object unchanged, preserving whatever `is_primary`
value it carries. -/
theorem legacy_upconversion_spec (a : Assignment) (l : List Assignment) :
    (openEditSuppliersList (SupplierBlob.legacy a)).length = 1 ∧
    (∀ b ∈ openEditSuppliersList (SupplierBlob.legacy a), b.is_primary = true) ∧
    openEditSuppliersList (SupplierBlob.list l) = l ∧
    (supplierDashboardList (SupplierBlob.legacy a)).length = 1 ∧
    (∀ b ∈ supplierDashboardList (SupplierBlob.legacy a), b.is_primary = a.is_primary) ∧
    supplierDashboardList (SupplierBlob.list l) = l := by
  refine ⟨rfl, ?_, rfl, rfl, ?_, rfl⟩
  · intro b hb
    rw [List.mem_singleton.mp hb]
  · intro b hb
    rw [List.mem_singleton.mp hb]

theorem legacy_upconversion_spec_witness :
    (openEditSuppliersList (SupplierBlob.legacy legacyNoPrimary)).length = 1 ∧
    ({ legacyNoPrimary with is_primary := true } : Assignment).is_primary = true :=
  ⟨(legacy_upconversion_spec legacyNoPrimary []).1,
   (legacy_upconversion_spec legacyNoPrimary []).2.1 _ (List.mem_singleton.mpr rfl)⟩

end InventoryPlanner
